import Mathlib

/-
  Verification of the Logger library (logger.h / logger.cpp).

  The embedding mirrors the C++ source:
  - LOG_TYPE is the enum from logger.h.
  - Logger state holds the two unordered_maps (modelled as association
    lists, so that .at lookups can fail and operator[] default-inserts,
    exactly as in C++), the separator, newline and buffer of formatted lines.
  - File-system interaction: opening an ofstream may fail; the open outcome
    for the requested (file name, open mode) is passed in as a Bool
    parameter openOk. A file write is modelled by the Option String of what
    was written (none = the file was never written).
  - The templated (generic StreamT) overloads pass each component through
    c_str(), which a stream insertion for const char pointers reads up to
    the first NUL byte: modelled by cOut.
-/

namespace logs

/-- The enum LOG_TYPE from logger.h: INFO, WARNING, ERROR, FATAL. -/
inductive LOG_TYPE where
  | INFO
  | WARNING
  | ERROR
  | FATAL
deriving DecidableEq, Repr, Fintype

open LOG_TYPE

/-- Lookup in the association-list model of std::unordered_map keyed by
LOG_TYPE; none models the std::out_of_range thrown by .at on a missing key. -/
def mapAt {β : Type} (m : List (LOG_TYPE × β)) (k : LOG_TYPE) : Option β :=
  match m with
  | [] => none
  | (k', v) :: rest => if k' = k then some v else mapAt rest k

/-- Assignment through operator[]: update the entry if the key is present,
otherwise insert a new entry. -/
def mapStore {β : Type} (m : List (LOG_TYPE × β)) (k : LOG_TYPE) (v : β) :
    List (LOG_TYPE × β) :=
  match m with
  | [] => [(k, v)]
  | (k', v') :: rest =>
    if k' = k then (k', v) :: rest else (k', v') :: mapStore rest k v

/-- Read through operator[]: if the key is missing, a value-initialized
entry (the default d) is inserted first; returns the possibly grown map and
the value read. -/
def mapIndex {β : Type} (d : β) (m : List (LOG_TYPE × β)) (k : LOG_TYPE) :
    List (LOG_TYPE × β) × β :=
  match m with
  | [] => ([(k, d)], d)
  | (k', v') :: rest =>
    if k' = k then ((k', v') :: rest, v')
    else
      let r := mapIndex d rest k
      ((k', v') :: r.1, r.2)

/-- The state of a logs::Logger instance (logger.h, private section). -/
structure Logger where
  flags_logs_enabled : List (LOG_TYPE × Bool)
  logs_headers : List (LOG_TYPE × String)
  separator : String
  newline : String
  buffer : List String
deriving DecidableEq, Repr

/-- Logger::Logger(): all four levels enabled, default headers, separator
" - ", newline a line feed, empty buffer (logger.cpp lines 8-11). -/
def Logger.mk0 : Logger :=
  { flags_logs_enabled :=
      [(INFO, true), (WARNING, true), (ERROR, true), (FATAL, true)],
    logs_headers :=
      [(INFO, "[INFO]"), (WARNING, "[WARNING]"),
       (ERROR, "[ERROR]"), (FATAL, "[FATAL]")],
    separator := " - ",
    newline := "\n",
    buffer := [] }

/-- Logger::Logger(std::size_t): delegates to the default constructor and
reserves buffer capacity; reserve changes no observable state
(logger.cpp lines 12-15). -/
def Logger.mkCap (_buffer_min_capacity : Nat) : Logger := Logger.mk0

/-- Logger::setEnabled (logger.cpp lines 18-21): operator[] assignment. -/
def Logger.setEnabled (l : Logger) (t : LOG_TYPE) (enabled : Bool) : Logger :=
  { l with flags_logs_enabled := mapStore l.flags_logs_enabled t enabled }

/-- Logger::setEnabledAllFlags, i.e. setEnabledAll (logger.cpp lines 22-26):
iterates the map and overwrites every existing value. -/
def Logger.setEnabledAll (l : Logger) (enabled : Bool) : Logger :=
  { l with flags_logs_enabled :=
      l.flags_logs_enabled.map (fun p => (p.1, enabled)) }

/-- Logger::isEnabled (logger.cpp lines 27-30): .at lookup. -/
def Logger.isEnabled (l : Logger) (t : LOG_TYPE) : Option Bool :=
  mapAt l.flags_logs_enabled t

/-- Logger::setHeader (logger.cpp lines 33-36): operator[] assignment. -/
def Logger.setHeader (l : Logger) (t : LOG_TYPE) (header : String) : Logger :=
  { l with logs_headers := mapStore l.logs_headers t header }

/-- Logger::header (logger.cpp lines 37-40): .at lookup. -/
def Logger.header (l : Logger) (t : LOG_TYPE) : Option String :=
  mapAt l.logs_headers t

/-- Logger::setSeparator (logger.cpp lines 41-44). -/
def Logger.setSeparator (l : Logger) (sep : String) : Logger :=
  { l with separator := sep }

/-- Logger::setNewline (logger.cpp lines 49-52). -/
def Logger.setNewline (l : Logger) (nl : String) : Logger :=
  { l with newline := nl }

/-- Buffered Logger::log(log_type, message) (logger.cpp lines 59-63): reads
the flag through operator[], and when enabled appends
header + separator + message (no newline) to the buffer, reading the header
through operator[] as well. -/
def Logger.log (l : Logger) (t : LOG_TYPE) (message : String) : Logger :=
  let fe := mapIndex false l.flags_logs_enabled t
  if fe.2 then
    let hd := mapIndex "" l.logs_headers t
    { l with flags_logs_enabled := fe.1, logs_headers := hd.1,
             buffer := l.buffer ++ [hd.2 ++ l.separator ++ message] }
  else
    { l with flags_logs_enabled := fe.1 }

/-- Direct Logger::log(log_type, message, std::ostream) (logger.cpp lines
64-68), a const member: result is the text written to the stream; none
models a lookup failure of .at, some "" models a disabled level (nothing
written). -/
def Logger.logStream (l : Logger) (t : LOG_TYPE) (message : String) :
    Option String :=
  match mapAt l.flags_logs_enabled t with
  | none => none
  | some en =>
    if en then
      match mapAt l.logs_headers t with
      | none => none
      | some h => some (h ++ l.separator ++ message ++ l.newline)
    else some ""

/-- Logger::log(log_type, message, file_name, mode) (logger.cpp lines
69-81), a const member. openOk is the outcome of opening the ofstream on
the given name and mode. Result: none models a lookup failure of .at;
otherwise the bool return value of the C++ function paired with what was
written to the file (none = the file was never opened or never written). -/
def Logger.logFile (l : Logger) (t : LOG_TYPE) (message : String)
    (openOk : Bool) : Option (Bool × Option String) :=
  match mapAt l.flags_logs_enabled t with
  | none => none
  | some en =>
    if en then
      if openOk then
        match mapAt l.logs_headers t with
        | none => none
        | some h => some (true, some (h ++ l.separator ++ message ++ l.newline))
      else some (false, none)
    else some (true, none)

/-- Logger::dump(std::ostream) (logger.cpp lines 82-87): writes every
buffered line followed by the current newline, then clears the buffer.
Returns the text written and the new state. -/
def Logger.dump (l : Logger) : String × Logger :=
  (String.join (l.buffer.map (fun line => line ++ l.newline)),
   { l with buffer := [] })

/-- Logger::dump(file_name, mode) (logger.cpp lines 88-99): if the open
fails, returns false and changes nothing; otherwise writes every buffered
line followed by the newline, clears the buffer and returns true. Result:
(return value, what was written to the file, new state). -/
def Logger.dumpFile (l : Logger) (openOk : Bool) :
    Bool × Option String × Logger :=
  if openOk then
    (true,
     some (String.join (l.buffer.map (fun line => line ++ l.newline))),
     { l with buffer := [] })
  else (false, none, l)

/-- The text a stream insertion of s.c_str() produces: the characters of s
up to (excluding) the first NUL byte. -/
def cOut (s : String) : String :=
  String.mk (s.data.takeWhile (fun c => c != Char.ofNat 0))

/-- Whether a string contains an embedded NUL character. -/
def hasNul (s : String) : Bool :=
  s.data.any (fun c => c == Char.ofNat 0)

/-- Templated Logger::log(log_type, message, StreamT) (logger.h lines
195-200): same as the std::ostream overload except every component is
passed through c_str(). -/
def Logger.logT (l : Logger) (t : LOG_TYPE) (message : String) :
    Option String :=
  match mapAt l.flags_logs_enabled t with
  | none => none
  | some en =>
    if en then
      match mapAt l.logs_headers t with
      | none => none
      | some h =>
        some (cOut h ++ cOut l.separator ++ cOut message ++ cOut l.newline)
    else some ""

/-- Templated Logger::dump(StreamT) (logger.h lines 205-211): every line and
the newline are passed through c_str(); the buffer is cleared. -/
def Logger.dumpT (l : Logger) : String × Logger :=
  (String.join (l.buffer.map (fun line => cOut line ++ cOut l.newline)),
   { l with buffer := [] })

/-- The static state of logs::SLogger (logger.cpp lines 101-105). -/
structure SLogger where
  INFO_ENABLED_FLAG : Bool
  WARNING_ENABLED_FLAG : Bool
  ERROR_ENABLED_FLAG : Bool
  FATAL_ENABLED_FLAG : Bool
  NEWLINE : String
deriving DecidableEq, Repr

/-- The initial values of SLogger's statics: all flags true, newline a line
feed (logger.cpp lines 101-105). -/
def SLogger.init : SLogger :=
  { INFO_ENABLED_FLAG := true, WARNING_ENABLED_FLAG := true,
    ERROR_ENABLED_FLAG := true, FATAL_ENABLED_FLAG := true,
    NEWLINE := "\n" }

/-- SLogger::log(log_type, message, std::ostream) (logger.cpp lines
107-119). Note the FATAL case writes the literal "[WARNING] - "
(logger.cpp line 117). Result: the text written to the stream. -/
def SLogger.logStream (s : SLogger) (t : LOG_TYPE) (message : String) :
    String :=
  match t with
  | INFO =>
    if s.INFO_ENABLED_FLAG then "[INFO] - " ++ message ++ s.NEWLINE else ""
  | WARNING =>
    if s.WARNING_ENABLED_FLAG then "[WARNING] - " ++ message ++ s.NEWLINE
    else ""
  | ERROR =>
    if s.ERROR_ENABLED_FLAG then "[ERROR] - " ++ message ++ s.NEWLINE else ""
  | FATAL =>
    if s.FATAL_ENABLED_FLAG then "[WARNING] - " ++ message ++ s.NEWLINE
    else ""

/-- SLogger::log(log_type, message, file_name, mode) (logger.cpp lines
120-161). The FATAL case writes "[FATAL] - " (logger.cpp line 156). Result:
(bool return value, what was written to the file). -/
def SLogger.logFile (s : SLogger) (t : LOG_TYPE) (message : String)
    (openOk : Bool) : Bool × Option String :=
  match t with
  | INFO =>
    if s.INFO_ENABLED_FLAG then
      if openOk then (true, some ("[INFO] - " ++ message ++ s.NEWLINE))
      else (false, none)
    else (true, none)
  | WARNING =>
    if s.WARNING_ENABLED_FLAG then
      if openOk then (true, some ("[WARNING] - " ++ message ++ s.NEWLINE))
      else (false, none)
    else (true, none)
  | ERROR =>
    if s.ERROR_ENABLED_FLAG then
      if openOk then (true, some ("[ERROR] - " ++ message ++ s.NEWLINE))
      else (false, none)
    else (true, none)
  | FATAL =>
    if s.FATAL_ENABLED_FLAG then
      if openOk then (true, some ("[FATAL] - " ++ message ++ s.NEWLINE))
      else (false, none)
    else (true, none)

/-- Templated SLogger::log(log_type, message, StreamT) (logger.h lines
258-271): the header is a string literal (never truncated), message and
NEWLINE go through c_str(). The FATAL case writes the literal
"[WARNING] - " (logger.h line 269). -/
def SLogger.logT (s : SLogger) (t : LOG_TYPE) (message : String) : String :=
  match t with
  | INFO =>
    if s.INFO_ENABLED_FLAG then "[INFO] - " ++ cOut message ++ cOut s.NEWLINE
    else ""
  | WARNING =>
    if s.WARNING_ENABLED_FLAG then
      "[WARNING] - " ++ cOut message ++ cOut s.NEWLINE
    else ""
  | ERROR =>
    if s.ERROR_ENABLED_FLAG then
      "[ERROR] - " ++ cOut message ++ cOut s.NEWLINE
    else ""
  | FATAL =>
    if s.FATAL_ENABLED_FLAG then
      "[WARNING] - " ++ cOut message ++ cOut s.NEWLINE
    else ""

/-- Both unordered_maps of a Logger hold an entry for every level. -/
def HasAllLevels (l : Logger) : Prop :=
  ∀ t : LOG_TYPE,
    (mapAt l.flags_logs_enabled t).isSome = true ∧
    (mapAt l.logs_headers t).isSome = true

instance (l : Logger) : Decidable (HasAllLevels l) := by
  unfold HasAllLevels
  infer_instance

/-- Logger states reachable from a constructor through the public mutating
operations. -/
inductive Reachable : Logger → Prop where
  | mk0 : Reachable Logger.mk0
  | mkCap (n : Nat) : Reachable (Logger.mkCap n)
  | setEnabled {l} (t en) : Reachable l → Reachable (l.setEnabled t en)
  | setEnabledAll {l} (en) : Reachable l → Reachable (l.setEnabledAll en)
  | setHeader {l} (t h) : Reachable l → Reachable (l.setHeader t h)
  | setSeparator {l} (s) : Reachable l → Reachable (l.setSeparator s)
  | setNewline {l} (n) : Reachable l → Reachable (l.setNewline n)
  | log {l} (t m) : Reachable l → Reachable (l.log t m)
  | dump {l} : Reachable l → Reachable (l.dump).2
  | dumpT {l} : Reachable l → Reachable (l.dumpT).2
  | dumpFile {l} (ok) : Reachable l → Reachable (l.dumpFile ok).2.2

theorem mapAt_mapStore_self {β : Type} (m : List (LOG_TYPE × β))
    (k : LOG_TYPE) (v : β) : mapAt (mapStore m k v) k = some v := by
  induction m with
  | nil => simp [mapStore, mapAt]
  | cons p rest ih =>
    obtain ⟨k', v'⟩ := p
    by_cases hk : k' = k
    · subst hk; simp [mapStore, mapAt]
    · simp [mapStore, mapAt, hk, ih]

theorem mapAt_mapStore_ne {β : Type} (m : List (LOG_TYPE × β))
    (k k' : LOG_TYPE) (v : β) (h : k' ≠ k) :
    mapAt (mapStore m k v) k' = mapAt m k' := by
  induction m with
  | nil => simp [mapStore, mapAt, Ne.symm h]
  | cons p rest ih =>
    obtain ⟨k₀, v₀⟩ := p
    by_cases hk : k₀ = k
    · subst hk
      simp [mapStore, mapAt, Ne.symm h]
    · simp [mapStore, mapAt, hk, ih]

theorem mapAt_setAll {β : Type} (m : List (LOG_TYPE × β)) (v : β)
    (k : LOG_TYPE) :
    mapAt (m.map (fun p => (p.1, v))) k = (mapAt m k).map (fun _ => v) := by
  induction m with
  | nil => simp [mapAt]
  | cons p rest ih =>
    obtain ⟨k', v'⟩ := p
    by_cases hk : k' = k
    · subst hk; simp [mapAt]
    · simp [mapAt, hk, ih]

theorem mapIndex_of_mem {β : Type} (d : β) (m : List (LOG_TYPE × β))
    (k : LOG_TYPE) (v : β) (h : mapAt m k = some v) :
    mapIndex d m k = (m, v) := by
  induction m with
  | nil => simp [mapAt] at h
  | cons p rest ih =>
    obtain ⟨k', v'⟩ := p
    by_cases hk : k' = k
    · subst hk
      simp [mapAt] at h
      simp [mapIndex, h]
    · simp [mapAt, hk] at h
      simp [mapIndex, hk, ih h]

theorem log_fields (l : Logger) (t : LOG_TYPE) (m : String)
    (hl : HasAllLevels l) :
    (l.log t m).flags_logs_enabled = l.flags_logs_enabled ∧
    (l.log t m).logs_headers = l.logs_headers := by
  obtain ⟨hf, hh⟩ := hl t
  obtain ⟨en, hen⟩ := Option.isSome_iff_exists.mp hf
  obtain ⟨h, hhd⟩ := Option.isSome_iff_exists.mp hh
  unfold Logger.log
  rw [mapIndex_of_mem false _ _ _ hen, mapIndex_of_mem "" _ _ _ hhd]
  cases en <;> simp

theorem reachable_hasAllLevels (l : Logger) (hr : Reachable l) :
    HasAllLevels l := by
  induction hr with
  | mk0 => decide
  | mkCap n => exact (by decide : HasAllLevels Logger.mk0)
  | setEnabled t en _ ih =>
    intro t'
    obtain ⟨hf, hh⟩ := ih t'
    refine ⟨?_, hh⟩
    by_cases ht : t' = t
    · subst ht
      simp [Logger.setEnabled, mapAt_mapStore_self]
    · simpa [Logger.setEnabled, mapAt_mapStore_ne _ _ _ _ ht] using hf
  | setEnabledAll en _ ih =>
    intro t'
    obtain ⟨hf, hh⟩ := ih t'
    refine ⟨?_, hh⟩
    simp only [Logger.setEnabledAll, mapAt_setAll]
    simpa using hf
  | setHeader t h _ ih =>
    intro t'
    obtain ⟨hf, hh⟩ := ih t'
    refine ⟨hf, ?_⟩
    by_cases ht : t' = t
    · subst ht
      simp [Logger.setHeader, mapAt_mapStore_self]
    · simpa [Logger.setHeader, mapAt_mapStore_ne _ _ _ _ ht] using hh
  | setSeparator s _ ih => exact ih
  | setNewline n _ ih => exact ih
  | log t m _ ih =>
    intro t'
    obtain ⟨hf, hh⟩ := log_fields _ t m ih
    rw [hf, hh]
    exact ih t'
  | dump _ ih => exact ih
  | dumpT _ ih => exact ih
  | dumpFile ok _ ih =>
    intro t'
    cases ok <;> simpa [Logger.dumpFile] using ih t'

theorem takeWhile_of_all {α : Type} (p : α → Bool) (xs : List α)
    (h : ∀ x ∈ xs, p x = true) : xs.takeWhile p = xs := by
  induction xs with
  | nil => rfl
  | cons a xs ih =>
    have ha := h a (List.mem_cons_self a xs)
    rw [List.takeWhile_cons, ha]
    simp [ih (fun x hx => h x (List.mem_cons_of_mem a hx))]

theorem cOut_eq_self (s : String) (h : hasNul s = false) : cOut s = s := by
  have hall : ∀ c ∈ s.data, (c != Char.ofNat 0) = true := by
    intro c hc
    cases hc0 : (c == Char.ofNat 0) with
    | false => simp [bne, hc0]
    | true =>
      exfalso
      have hany : s.data.any (fun c => c == Char.ofNat 0) = true :=
        List.any_eq_true.mpr ⟨c, hc, hc0⟩
      rw [hasNul, hany] at h
      simp at h
  unfold cOut
  rw [takeWhile_of_all _ _ hall]

theorem map_line_congr (xs : List String) (nl : String)
    (hn : hasNul nl = false) (hb : ∀ x ∈ xs, hasNul x = false) :
    xs.map (fun line => cOut line ++ cOut nl) =
      xs.map (fun line => line ++ nl) := by
  induction xs with
  | nil => rfl
  | cons a xs ih =>
    have ha := hb a (List.mem_cons_self a xs)
    rw [List.map_cons, List.map_cons,
      ih (fun x hx => hb x (List.mem_cons_of_mem a hx)),
      cOut_eq_self _ ha, cOut_eq_self _ hn]

/-- Claim C1 counterexample: the claim states that the Static Logger's
std::ostream log path emits the header "[FATAL]" for Fatal-level messages,
but on the initial static state and message "m" that path emits
"[WARNING] - m" followed by the newline (logger.cpp line 117), not
"[FATAL] - m". -/
theorem C1_counterexample :
    SLogger.logStream SLogger.init FATAL "m" = "[WARNING] - m\n" ∧
    SLogger.logStream SLogger.init FATAL "m" ≠ "[FATAL] - m\n" := by
  constructor
  · rfl
  · decide

/-- Claim C1 (amended): for Fatal-level messages the Static Logger emits the
literal header "[WARNING]" on BOTH the templated generic-stream path and the
std::ostream path, and "[FATAL]" only on the file path; for Info, Warning
and Error every path emits that level's own fixed header. -/
theorem C1_fatal_header_amended (s : SLogger) (m : String) (ok : Bool)
    (hI : s.INFO_ENABLED_FLAG = true) (hW : s.WARNING_ENABLED_FLAG = true)
    (hE : s.ERROR_ENABLED_FLAG = true) (hF : s.FATAL_ENABLED_FLAG = true) :
    (SLogger.logStream s INFO m = "[INFO] - " ++ m ++ s.NEWLINE ∧
     SLogger.logT s INFO m = "[INFO] - " ++ cOut m ++ cOut s.NEWLINE ∧
     SLogger.logFile s INFO m ok =
       (ok, if ok then some ("[INFO] - " ++ m ++ s.NEWLINE) else none)) ∧
    (SLogger.logStream s WARNING m = "[WARNING] - " ++ m ++ s.NEWLINE ∧
     SLogger.logT s WARNING m = "[WARNING] - " ++ cOut m ++ cOut s.NEWLINE ∧
     SLogger.logFile s WARNING m ok =
       (ok, if ok then some ("[WARNING] - " ++ m ++ s.NEWLINE) else none)) ∧
    (SLogger.logStream s ERROR m = "[ERROR] - " ++ m ++ s.NEWLINE ∧
     SLogger.logT s ERROR m = "[ERROR] - " ++ cOut m ++ cOut s.NEWLINE ∧
     SLogger.logFile s ERROR m ok =
       (ok, if ok then some ("[ERROR] - " ++ m ++ s.NEWLINE) else none)) ∧
    (SLogger.logStream s FATAL m = "[WARNING] - " ++ m ++ s.NEWLINE ∧
     SLogger.logT s FATAL m = "[WARNING] - " ++ cOut m ++ cOut s.NEWLINE ∧
     SLogger.logFile s FATAL m ok =
       (ok, if ok then some ("[FATAL] - " ++ m ++ s.NEWLINE) else none)) := by
  cases ok <;>
    simp [SLogger.logStream, SLogger.logT, SLogger.logFile, hI, hW, hE, hF]

/-- Witness for C1 amended at the initial static state and message "m". -/
theorem C1_fatal_header_amended_witness :
    SLogger.logStream SLogger.init FATAL "m" =
      "[WARNING] - " ++ "m" ++ SLogger.init.NEWLINE ∧
    SLogger.logT SLogger.init FATAL "m" =
      "[WARNING] - " ++ cOut "m" ++ cOut SLogger.init.NEWLINE ∧
    SLogger.logFile SLogger.init FATAL "m" true =
      (true,
       if true then some ("[FATAL] - " ++ "m" ++ SLogger.init.NEWLINE)
       else none) :=
  (C1_fatal_header_amended SLogger.init "m" true rfl rfl rfl rfl).2.2.2

/-- Claim C2: dump to a stream writes every buffered line (each followed by
the newline, in original order) and clears the buffer unconditionally;
dump to a file whose open fails returns false and leaves the whole state,
in particular the buffer, exactly unchanged, so a subsequent successful
file dump emits all originally buffered lines in original order. -/
theorem C2_dump_failure_asymmetry (l : Logger) :
    (l.dump).1 = String.join (l.buffer.map (fun line => line ++ l.newline)) ∧
    (l.dump).2.buffer = [] ∧
    l.dumpFile false = (false, none, l) ∧
    ((l.dumpFile false).2.2.dumpFile true).1 = true ∧
    ((l.dumpFile false).2.2.dumpFile true).2.1 =
      some (String.join (l.buffer.map (fun line => line ++ l.newline))) ∧
    ((l.dumpFile false).2.2.dumpFile true).2.2.buffer = [] :=
  ⟨rfl, rfl, rfl, rfl, rfl, rfl⟩

/-- Claim C3: a buffered entry is formatted with the header and separator in
effect at log time (no newline included), while the newline is appended at
dump time, so setNewline after buffering affects all previously buffered
lines and setHeader / setSeparator after buffering affect none of them. -/
theorem C3_format_captured_at_log_time (l : Logger) (t : LOG_TYPE)
    (m : String) (h : String)
    (hen : mapAt l.flags_logs_enabled t = some true)
    (hh : mapAt l.logs_headers t = some h) :
    (l.log t m).buffer = l.buffer ++ [h ++ l.separator ++ m] ∧
    (∀ nl, (((l.log t m).setNewline nl).dump).1 =
      String.join ((l.buffer ++ [h ++ l.separator ++ m]).map
        (fun line => line ++ nl))) ∧
    (∀ t' h', (((l.log t m).setHeader t' h').dump).1 =
      ((l.log t m).dump).1) ∧
    (∀ sep, (((l.log t m).setSeparator sep).dump).1 =
      ((l.log t m).dump).1) := by
  have hbuf : (l.log t m).buffer = l.buffer ++ [h ++ l.separator ++ m] := by
    unfold Logger.log
    rw [mapIndex_of_mem false _ _ _ hen, mapIndex_of_mem "" _ _ _ hh]
    simp
  refine ⟨hbuf, ?_, ?_, ?_⟩
  · intro nl
    simp [Logger.setNewline, Logger.dump, hbuf]
  · intro t' h'
    rfl
  · intro sep
    rfl

/-- Witness for C3 on the default logger with an Info message "x". -/
theorem C3_witness :
    mapAt Logger.mk0.flags_logs_enabled INFO = some true ∧
    mapAt Logger.mk0.logs_headers INFO = some "[INFO]" ∧
    (Logger.mk0.log INFO "x").buffer =
      Logger.mk0.buffer ++ ["[INFO]" ++ Logger.mk0.separator ++ "x"] := by
  have h := C3_format_captured_at_log_time Logger.mk0 INFO "x" "[INFO]"
    (by decide) (by decide)
  exact ⟨by decide, by decide, h.1⟩

/-- Claim C4: for an enabled level, the file log returns false exactly when
the open fails, writes header + separator + message + newline on success,
and on failure writes nothing; for a disabled level it returns true and
never touches the file. -/
theorem C4_file_log_contract (l : Logger) (t : LOG_TYPE) (m : String)
    (ok : Bool) (h : String) (hh : mapAt l.logs_headers t = some h) :
    (mapAt l.flags_logs_enabled t = some true →
      l.logFile t m ok =
        some (ok,
          if ok then some (h ++ l.separator ++ m ++ l.newline) else none)) ∧
    (mapAt l.flags_logs_enabled t = some false →
      l.logFile t m ok = some (true, none)) := by
  constructor
  · intro hen
    cases ok <;> simp [Logger.logFile, hen, hh]
  · intro hen
    simp [Logger.logFile, hen]

/-- Witness for C4 on the default logger: open failure returns false and
writes nothing. -/
theorem C4_witness :
    mapAt Logger.mk0.logs_headers INFO = some "[INFO]" ∧
    mapAt Logger.mk0.flags_logs_enabled INFO = some true ∧
    Logger.mk0.logFile INFO "x" false = some (false, none) := by
  have h := C4_file_log_contract Logger.mk0 INFO "x" false "[INFO]"
    (by decide)
  exact ⟨by decide, by decide, h.1 (by decide)⟩

/-- Claim C5: when a level is disabled, the buffered log is a complete
no-op on the state (in particular the buffer is unchanged), the direct
stream log writes nothing, the file log returns success without touching
the file, and the templated log writes nothing; none of them signals an
error. -/
theorem C5_disabled_silent_noop (l : Logger) (t : LOG_TYPE) (m : String)
    (ok : Bool) (hdis : mapAt l.flags_logs_enabled t = some false) :
    l.log t m = l ∧
    l.logStream t m = some "" ∧
    l.logFile t m ok = some (true, none) ∧
    l.logT t m = some "" := by
  refine ⟨?_, ?_, ?_, ?_⟩
  · unfold Logger.log
    rw [mapIndex_of_mem false _ _ _ hdis]
    simp
  · simp [Logger.logStream, hdis]
  · simp [Logger.logFile, hdis]
  · simp [Logger.logT, hdis]

/-- Witness for C5 on the default logger with Info disabled. -/
theorem C5_witness :
    mapAt (Logger.mk0.setEnabled INFO false).flags_logs_enabled INFO =
      some false ∧
    (Logger.mk0.setEnabled INFO false).log INFO "x" =
      Logger.mk0.setEnabled INFO false ∧
    (Logger.mk0.setEnabled INFO false).logStream INFO "x" = some "" := by
  have h := C5_disabled_silent_noop (Logger.mk0.setEnabled INFO false) INFO
    "x" true (by decide)
  exact ⟨by decide, h.1, h.2.1⟩

/-- Claim C6: on a default-constructed Logger, a buffered Info log of "x"
followed by a stream dump writes exactly "[INFO] - x" plus a line feed and
leaves the buffer empty. -/
theorem C6_default_info_roundtrip :
    ((Logger.mk0.log INFO "x").dump).1 = "[INFO] - x\n" ∧
    ((Logger.mk0.log INFO "x").dump).2.buffer = [] := by
  constructor
  · rfl
  · rfl

/-- Claim C7: a default-constructed Logger (with or without the capacity
hint, which changes no observable state) has all four levels enabled, the
four default headers, separator " - ", newline a line feed, and an empty
buffer. -/
theorem C7_default_configuration (n : Nat) :
    Logger.mkCap n = Logger.mk0 ∧
    (∀ t : LOG_TYPE, Logger.mk0.isEnabled t = some true) ∧
    Logger.mk0.header INFO = some "[INFO]" ∧
    Logger.mk0.header WARNING = some "[WARNING]" ∧
    Logger.mk0.header ERROR = some "[ERROR]" ∧
    Logger.mk0.header FATAL = some "[FATAL]" ∧
    Logger.mk0.separator = " - " ∧
    Logger.mk0.newline = "\n" ∧
    Logger.mk0.buffer = [] :=
  ⟨rfl, by decide, rfl, rfl, rfl, rfl, rfl, rfl, rfl⟩

/-- Claim C8: after setEnabledAll false every level reports disabled;
re-enabling one level L makes only L enabled, every other level stays
disabled, and the headers, separator, newline and buffer are unchanged. -/
theorem C8_reenable_frame (l : Logger) (L t : LOG_TYPE)
    (hl : HasAllLevels l) :
    ((l.setEnabledAll false).isEnabled t = some false) ∧
    (((l.setEnabledAll false).setEnabled L true).isEnabled L = some true) ∧
    (t ≠ L →
      ((l.setEnabledAll false).setEnabled L true).isEnabled t =
        some false) ∧
    ((l.setEnabledAll false).setEnabled L true).logs_headers =
      l.logs_headers ∧
    ((l.setEnabledAll false).setEnabled L true).separator = l.separator ∧
    ((l.setEnabledAll false).setEnabled L true).newline = l.newline ∧
    ((l.setEnabledAll false).setEnabled L true).buffer = l.buffer := by
  obtain ⟨hf, _⟩ := hl t
  obtain ⟨en, hen⟩ := Option.isSome_iff_exists.mp hf
  refine ⟨?_, ?_, ?_, rfl, rfl, rfl, rfl⟩
  · simp [Logger.isEnabled, Logger.setEnabledAll, mapAt_setAll, hen]
  · simp [Logger.isEnabled, Logger.setEnabled, mapAt_mapStore_self]
  · intro hne
    simp [Logger.isEnabled, Logger.setEnabled,
      mapAt_mapStore_ne _ _ _ _ hne, Logger.setEnabledAll, mapAt_setAll,
      hen]

/-- Witness for C8 on the default logger, re-enabling Info. -/
theorem C8_witness :
    HasAllLevels Logger.mk0 ∧
    (Logger.mk0.setEnabledAll false).isEnabled WARNING = some false ∧
    ((Logger.mk0.setEnabledAll false).setEnabled INFO true).isEnabled INFO =
      some true ∧
    ((Logger.mk0.setEnabledAll false).setEnabled INFO
      true).isEnabled WARNING = some false := by
  have h := C8_reenable_frame Logger.mk0 INFO WARNING (by decide)
  exact ⟨by decide, h.1, h.2.1, h.2.2.1 (by decide)⟩

/-- Claim C9: on every state reachable through the public operations, both
maps hold an entry for every level, so isEnabled, header, the direct
stream log, the file log and the templated log never signal a lookup
error. -/
theorem C9_no_lookup_error (l : Logger) (hr : Reachable l) (t : LOG_TYPE)
    (m : String) (ok : Bool) :
    (l.isEnabled t).isSome = true ∧ (l.header t).isSome = true ∧
    (l.logStream t m).isSome = true ∧ (l.logFile t m ok).isSome = true ∧
    (l.logT t m).isSome = true := by
  obtain ⟨hf, hh⟩ := reachable_hasAllLevels l hr t
  obtain ⟨en, hen⟩ := Option.isSome_iff_exists.mp hf
  obtain ⟨h, hhd⟩ := Option.isSome_iff_exists.mp hh
  refine ⟨?_, ?_, ?_, ?_, ?_⟩ <;>
    cases en <;> cases ok <;>
      simp [Logger.isEnabled, Logger.header, Logger.logStream,
        Logger.logFile, Logger.logT, hen, hhd]

/-- Witness for C9 at the default-constructed state. -/
theorem C9_witness :
    Reachable Logger.mk0 ∧
    ((Logger.mk0.isEnabled INFO).isSome = true ∧
     (Logger.mk0.header INFO).isSome = true ∧
     (Logger.mk0.logStream INFO "x").isSome = true ∧
     (Logger.mk0.logFile INFO "x" true).isSome = true ∧
     (Logger.mk0.logT INFO "x").isSome = true) :=
  ⟨Reachable.mk0,
   C9_no_lookup_error Logger.mk0 Reachable.mk0 INFO "x" true⟩

/-- Claim C10: whenever the header, separator, message, newline and
buffered lines contain no embedded NUL character, the templated log and
dump emit exactly what the std::ostream overloads emit (and leave the same
state); and the equivalence can fail for a message containing a NUL, since
the templated path truncates every component at the first NUL. -/
theorem C10_templated_refinement (l : Logger) (t : LOG_TYPE) (m : String)
    (hm : hasNul m = false) (hs : hasNul l.separator = false)
    (hn : hasNul l.newline = false)
    (hh : hasNul ((l.header t).getD "") = false)
    (hb : ∀ line ∈ l.buffer, hasNul line = false) :
    l.logT t m = l.logStream t m ∧ l.dumpT = l.dump ∧
    Logger.mk0.logT INFO (String.mk [Char.ofNat 0, Char.ofNat 97]) ≠
      Logger.mk0.logStream INFO (String.mk [Char.ofNat 0, Char.ofNat 97])
    := by
  refine ⟨?_, ?_, by decide⟩
  · cases hfe : mapAt l.flags_logs_enabled t with
    | none => simp [Logger.logT, Logger.logStream, hfe]
    | some en =>
      cases en with
      | false => simp [Logger.logT, Logger.logStream, hfe]
      | true =>
        cases hhd : mapAt l.logs_headers t with
        | none => simp [Logger.logT, Logger.logStream, hfe, hhd]
        | some hstr =>
          have hgd : (l.header t).getD "" = hstr := by
            simp [Logger.header, hhd]
          rw [hgd] at hh
          simp [Logger.logT, Logger.logStream, hfe, hhd,
            cOut_eq_self _ hm, cOut_eq_self _ hs, cOut_eq_self _ hn,
            cOut_eq_self _ hh]
  · unfold Logger.dumpT Logger.dump
    rw [map_line_congr _ _ hn hb]

/-- Witness for C10 on the default logger with message "x". -/
theorem C10_witness :
    hasNul "x" = false ∧
    Logger.mk0.logT INFO "x" = Logger.mk0.logStream INFO "x" ∧
    Logger.mk0.dumpT = Logger.mk0.dump := by
  have h := C10_templated_refinement Logger.mk0 INFO "x" (by decide)
    (by decide) (by decide) (by decide) (by decide)
  exact ⟨by decide, h.1, h.2.1⟩

end logs
